import Mathlib

/-!
Verification development for the My_Mind_Mirror ml-service.

Shallow embedding of the core components described in the specification:
the rate-limited Gemini API client with retry/backoff
(`src/ml-service/modules/common/gemini_api_client.py`), the journal
analysis assembler / mood scorer / EWMA anomaly detector / clustering
pipeline (`src/ml-service/modules/journal/routes.py`).

Modelling conventions:
- Python floats are modelled as exact rationals (`ℚ`).
- A value that Python represents as NaN (a failed `pd.to_numeric`
  coercion, or a pandas EWM output below `min_periods`) is `none`.
- Wall-clock time is an explicit rational parameter; `time.sleep(d)`
  is modelled as advancing the clock by exactly `d`.
- Exceptions are explicit values of an exception type; a Python
  function that may raise is modelled as returning `Except`.
-/

namespace MindMirror

/- Batteries marks the rational-number operations `@[irreducible]`, which
blocks `decide`/`rfl` evaluation of concrete rational computations; make
them semireducible so concrete runs of the embedded definitions can be
checked by evaluation. -/
attribute [local semireducible] Rat.add Rat.mul Rat.inv Rat.sub
  Rat.ofScientific

/-! ## Gemini API client: exceptions and the tenacity retry policy
    (gemini_api_client.py, `_make_api_call_with_retries` / `call_gemini_api`) -/

/-- The exception classes that can escape the body of
`_make_api_call_with_retries`: `requests.exceptions.Timeout`,
`requests.exceptions.ConnectionError`, `requests.exceptions.HTTPError`
(raised by `response.raise_for_status()` for any status >= 400, carrying
the status), `json.JSONDecodeError` (from `response.json()`), and a
catch-all for any other exception class. -/
inductive PyException where
  | timeout
  | connectionError
  | httpError (status : Nat)
  | jsonDecodeError
  | otherError
deriving DecidableEq

deriving instance DecidableEq for Except

/-- The tenacity policy `retry_if_exception_type((requests.exceptions.HTTPError,
requests.exceptions.Timeout, requests.exceptions.ConnectionError))`:
an attempt is retried exactly when the raised exception is an instance of
one of these three classes.  Note `HTTPError` matches regardless of the
HTTP status carried. -/
def isRetryableException : PyException → Bool
  | .timeout => true
  | .connectionError => true
  | .httpError _ => true
  | .jsonDecodeError => false
  | .otherError => false

/-- Result of the JSON-extraction steps applied to the candidate text when a
response schema was requested (lines 145-164): direct `json.loads` success,
fenced ```json block extraction success, fence found but inner decode failed,
or no parseable JSON found at all. -/
inductive ParseOutcome where
  | rawJsonOk (payload : String)
  | fencedJsonOk (payload : String)
  | fencedJsonBad
  | noJsonFound
deriving DecidableEq

/-- Shape of the HTTP response body as far as the client inspects it:
`response.json()` raises `json.JSONDecodeError`; the decoded envelope is
missing `candidates[0].content.parts`; or it carries a candidate text
together with an optional `promptFeedback.blockReason` and the outcome of
JSON extraction from that text. -/
inductive GeminiBody where
  | invalidJson
  | missingContent
  | content (text : String) (blockReason : Option String) (parse : ParseOutcome)
deriving DecidableEq

/-- What the transport layer does on one attempt: raise a timeout, raise a
connection error, or deliver an HTTP response with a status code and body. -/
inductive TransportOutcome where
  | raiseTimeout
  | raiseConnectionError
  | response (status : Nat) (body : GeminiBody)
deriving DecidableEq

/-- A successful return value of `_make_api_call_with_retries`: a parsed
JSON value (schema requested) or the raw candidate text. JSON payloads are
kept abstract as strings. -/
inductive GeminiValue where
  | jsonValue (payload : String)
  | textValue (payload : String)
deriving DecidableEq

/-- Lines 134-169: after the status checks pass, decode the body
(`response.json()` may raise), locate `candidates[0].content.parts[0].text`
(missing ⇒ `return None`), honour a moderation block (⇒ `return None`),
then either parse JSON (schema requested; both parse failures ⇒ `None`)
or return the raw text. -/
def processResponse (responseSchema : Bool) (body : GeminiBody) :
    Except PyException (Option GeminiValue) :=
  match body with
  | .invalidJson => .error .jsonDecodeError
  | .missingContent => .ok none
  | .content text blockReason parse =>
    if blockReason.isSome then .ok none
    else if responseSchema then
      match parse with
      | .rawJsonOk payload => .ok (some (.jsonValue payload))
      | .fencedJsonOk payload => .ok (some (.jsonValue payload))
      | .fencedJsonBad => .ok none
      | .noJsonFound => .ok none
    else .ok (some (.textValue text))

/-- One execution of the body of `_make_api_call_with_retries` (lines
88-169), given what the transport does.  Status-code handling mirrors
lines 124-132: status 429, any 5xx, and any other 4xx all call
`response.raise_for_status()`, which raises `HTTPError` for every
status >= 400. -/
def attemptOnce (responseSchema : Bool) (t : TransportOutcome) :
    Except PyException (Option GeminiValue) :=
  match t with
  | .raiseTimeout => .error .timeout
  | .raiseConnectionError => .error .connectionError
  | .response status body =>
    if status = 429 then .error (.httpError status)
    else if 500 ≤ status then .error (.httpError status)
    else if 400 ≤ status then .error (.httpError status)
    else processResponse responseSchema body

/-- Maximum number of attempts: `stop_after_attempt(5)`. -/
def maxApiAttempts : Nat := 5

/-- The tenacity retry loop.  `outcomes n` is what the transport does on
the n-th attempt (1-based).  `fuel` is how many attempts may still be
started (including the current one).  Returns the final result —
`.error` models the exception being re-raised (`reraise=True`) — paired
with the number of attempt bodies that were started.  Each started body
first calls `self._wait_for_rate_limit(...)` (line 90), so the second
component is also the number of rate-gate queries. -/
def retryRun (responseSchema : Bool) (outcomes : Nat → TransportOutcome) :
    Nat → Nat → Except PyException (Option GeminiValue) × Nat
  | _, 0 => (.error .otherError, 0)
  | attempt, fuel + 1 =>
    match attemptOnce responseSchema (outcomes attempt) with
    | .ok v => (.ok v, 1)
    | .error e =>
      match fuel, isRetryableException e with
      | f + 1, true =>
        let r := retryRun responseSchema outcomes (attempt + 1) (f + 1)
        (r.1, r.2 + 1)
      | _, _ => (.error e, 1)

/-- `_make_api_call_with_retries` under the decorator
`retry(wait=..., stop=stop_after_attempt(5), retry=retry_if_exception_type(
(HTTPError, Timeout, ConnectionError)), reraise=True)`. -/
def makeApiCallWithRetries (responseSchema : Bool)
    (outcomes : Nat → TransportOutcome) :
    Except PyException (Option GeminiValue) × Nat :=
  retryRun responseSchema outcomes 1 maxApiAttempts

/-- The `except` chain of `call_gemini_api` (lines 174-188): `Timeout`,
`ConnectionError`, `HTTPError`, `json.JSONDecodeError`, and the final
catch-all `except Exception` each return `None`. -/
def handleApiException : PyException → Option GeminiValue
  | .timeout => none
  | .connectionError => none
  | .httpError _ => none
  | .jsonDecodeError => none
  | .otherError => none

/-- `call_gemini_api` (lines 171-188): run the retrying call, convert any
raised exception into `None` via the handler chain.  The second component
is the total number of rate-gate queries performed. -/
def callGeminiApi (responseSchema : Bool)
    (outcomes : Nat → TransportOutcome) : Option GeminiValue × Nat :=
  (match (makeApiCallWithRetries responseSchema outcomes).1 with
   | .ok v => v
   | .error e => handleApiException e,
   (makeApiCallWithRetries responseSchema outcomes).2)

/-! ## RateLimitedGate (gemini_api_client.py, `_wait_for_rate_limit`)

The singleton `GeminiApiClient` keeps a deque of request timestamps and a
running token counter with a window-start time.  `time.sleep(d)` is
modelled as advancing the simulated clock by exactly `d`; the lock is not
modelled (the whole method body runs under `self._lock`, so one call is a
single atomic step and a concurrent execution is some interleaving of
these atomic steps). -/

/-- The limiter's mutable state: `self.requests_timestamps` (oldest
first), `self.current_tokens_in_window`, `self._tpm_last_reset_time`. -/
structure GateState where
  requestsTimestamps : List ℚ
  currentTokensInWindow : ℚ
  tpmLastResetTime : ℚ
deriving DecidableEq

/-- The limiter's configuration: `self.rpm_window`, `self.tpm_window`,
`self.max_requests_per_minute`, `self.max_tokens_per_minute`. -/
structure GateConfig where
  rpmWindow : ℚ
  tpmWindow : ℚ
  maxRequestsPerMinute : Nat
  maxTokensPerMinute : ℚ
deriving DecidableEq

/-- The configuration built in `GeminiApiClient.__init__` from
`Config.GEMINI_API_RPM_LIMIT = 30000` and
`Config.GEMINI_API_TPM_LIMIT = 30_000_000`, with 60-second windows. -/
def geminiGateConfig : GateConfig := ⟨60, 60, 30000, 30000000⟩

/-- Lines 46-47 / 55-56: `while self.requests_timestamps and
self.requests_timestamps[0] <= current_time - self.rpm_window:
popleft()`.  Drops expired timestamps from the front, stopping at the
first retained one. -/
def dropExpired (window now : ℚ) : List ℚ → List ℚ
  | [] => []
  | t :: rest => if t ≤ now - window then dropExpired window now rest else t :: rest

/-- The RPM section of `_wait_for_rate_limit` (lines 45-58).  Returns the
timestamp deque after expiry/append and the clock time after any sleep. -/
def rpmPhase (cfg : GateConfig) (ts : List ℚ) (now : ℚ) : List ℚ × ℚ :=
  let ts1 := dropExpired cfg.rpmWindow now ts
  let p :=
    if cfg.maxRequestsPerMinute ≤ ts1.length then
      let wait := cfg.rpmWindow - (now - ts1.headD 0) + 1 / 100
      if 0 < wait then
        let t2 := now + wait
        (dropExpired cfg.rpmWindow t2 ts1, t2)
      else (ts1, now)
    else (ts1, now)
  (p.1 ++ [p.2], p.2)

/-- The TPM section of `_wait_for_rate_limit` (lines 60-74), starting from
clock time `t`: reset the token window if 60 seconds have elapsed
(lines 61-63); if adding `add` would exceed the token limit, sleep until
the window would reset, zero the counter and restart the window at the
post-sleep clock (lines 65-72); finally add `add` to the counter
(line 74).  Returns (token counter, window start, clock time); the two
outer branches carry the counter/window-start values left by the
reset-check assignment. -/
def tpmPhase (cfg : GateConfig) (tokens lastReset t add : ℚ) : ℚ × ℚ × ℚ :=
  if cfg.tpmWindow ≤ t - lastReset then
    if cfg.maxTokensPerMinute < 0 + add then
      if 0 < cfg.tpmWindow - (t - t) + 1 / 100 then
        (0 + add, t + (cfg.tpmWindow - (t - t) + 1 / 100),
         t + (cfg.tpmWindow - (t - t) + 1 / 100))
      else (0 + add, t, t)
    else (0 + add, t, t)
  else
    if cfg.maxTokensPerMinute < tokens + add then
      if 0 < cfg.tpmWindow - (t - lastReset) + 1 / 100 then
        (0 + add, t + (cfg.tpmWindow - (t - lastReset) + 1 / 100),
         t + (cfg.tpmWindow - (t - lastReset) + 1 / 100))
      else (tokens + add, lastReset, t)
    else (tokens + add, lastReset, t)

/-- `_wait_for_rate_limit(tokens_to_add)` called at clock time `now`:
the whole body of lines 41-75.  Returns the new state and the clock time
at which the call is admitted. -/
def waitForRateLimit (cfg : GateConfig) (s : GateState) (now add : ℚ) :
    GateState × ℚ :=
  let r := rpmPhase cfg s.requestsTimestamps now
  let q := tpmPhase cfg s.currentTokensInWindow s.tpmLastResetTime r.2 add
  (⟨r.1, q.1, q.2.1⟩, q.2.2)

/-- A sequence of `acquire` calls: each list entry gives the clock time at
which the call starts and its `tokens_to_add` estimate. -/
def runAcquires (cfg : GateConfig) (s : GateState) (calls : List (ℚ × ℚ)) :
    GateState :=
  calls.foldl (fun st c => (waitForRateLimit cfg st c.1 c.2).1) s

/-! ## JournalAnalysisAssembler: emotion coercion and normalization
    (routes.py, `get_gemini_journal_analysis`, lines 115-132) -/

/-- A raw emotion score as received from the remote service: either a
value that `float(score)` converts successfully, or one raising
`ValueError`/`TypeError` (defaulted to `0.0`, line 124). -/
inductive RawScore where
  | num (q : ℚ)
  | invalid
deriving DecidableEq

/-- Line 119-124: `float(score)` with the `except (ValueError, TypeError)`
default of `0.0`. -/
def coerceScore : RawScore → ℚ
  | .num q => q
  | .invalid => 0

/-- Lines 118-124: build `processed_emotions` by numerically coercing each
score, keeping every key. -/
def processEmotions (raw : List (String × RawScore)) : List (String × ℚ) :=
  raw.map fun p => (p.1, coerceScore p.2)

/-- `sum(processed_emotions.values())` (line 126). -/
def emotionsTotal (es : List (String × ℚ)) : ℚ :=
  (es.map Prod.snd).sum

/-- Lines 126-132: if the coerced total is positive and differs from 1.0
by more than 0.01, rescale every score by the total; otherwise use the
coerced scores unchanged. -/
def normalizeEmotions (raw : List (String × RawScore)) : List (String × ℚ) :=
  if 0 < emotionsTotal (processEmotions raw) ∧
      1 / 100 < |emotionsTotal (processEmotions raw) - 1| then
    (processEmotions raw).map fun p =>
      (p.1, p.2 / emotionsTotal (processEmotions raw))
  else processEmotions raw

/-! ## MoodScorer (routes.py, `analyze_journal`, lines 180-203) -/

/-- The fixed `emotion_weights` table (lines 180-189). -/
def emotionWeights : List (String × ℚ) :=
  [("joy", 1), ("love", 1), ("surprise", 1/2), ("amusement", 1/2),
   ("excitement", 4/5), ("sadness", -1), ("anger", -4/5), ("fear", -7/10),
   ("disappointment", -3/5), ("grief", -1), ("neutral", 0), ("optimism", 7/10),
   ("relief", 2/5), ("caring", 3/5), ("curiosity", 3/10),
   ("embarrassment", -2/5), ("pride", 1/2), ("remorse", -1/2),
   ("annoyance", -3/10), ("disgust", -3/5), ("stress", -7/10),
   ("frustration", -1/2), ("gratitude", 9/10), ("hope", 4/5)]

/-- `emotion_weights.get(emotion.lower(), 0.0)` (line 196). -/
def weightFor (emotion : String) : ℚ :=
  (emotionWeights.lookup emotion.toLower).getD 0

/-- `calculated_mood_score`: the running sum of `score * weight`
(line 197). -/
def weightedMoodSum (emotions : List (String × ℚ)) : ℚ :=
  (emotions.map fun p => p.2 * weightFor p.1).sum

/-- `total_emotion_score`: the running sum of the raw scores (line 198). -/
def totalEmotionScore (emotions : List (String × ℚ)) : ℚ :=
  (emotions.map Prod.snd).sum

/-- Lines 191-203: the derived mood score.  The loop runs only when the
mapping is non-empty, but an empty mapping leaves both accumulators at
`0.0`, so the `total > 0` test alone decides the branch. -/
def moodScore (emotions : List (String × ℚ)) : ℚ :=
  if 0 < totalEmotionScore emotions then
    weightedMoodSum emotions / totalEmotionScore emotions
  else 0

/-! ## ClusterManager (routes.py, `train_and_save_clustering_model` and
    `get_cluster_keywords_semantic`) -/

/-- A fitted sklearn `KMeans` model as far as the service inspects it:
`n_clusters` (the constructor argument, line 385) and `labels_` (one
cluster id per training input, produced by the opaque fitting
algorithm). -/
structure KMeansModel where
  nClusters : Nat
  labels : List Nat
deriving DecidableEq

/-- `train_and_save_clustering_model(user_id, journal_texts, n_clusters)`
(lines 359-395).  The sentence-transformer embedding and the k-means
optimization are external collaborators, abstracted as the `assign`
oracle giving `labels_` for a fit with the given cluster count; sklearn
stores the requested `n_clusters` on the model verbatim.  Persistence
(joblib dump) has no effect on the returned value and is not modelled.
`n_clusters` arrives as an integer (the `int(...)` conversion on line 375
is the identity for integer input, which is what the claims assume). -/
def trainAndSaveClusteringModel (assign : Nat → List String → List Nat)
    (sentenceModelLoaded : Bool) (journalTexts : List String)
    (nClusters : Int) : Option KMeansModel :=
  if journalTexts.isEmpty then none
  else if !sentenceModelLoaded then none
  else
    let actual : Int := min nClusters (journalTexts.length : Int)
    if actual ≤ 1 then none
    else some ⟨actual.toNat, assign actual.toNat journalTexts⟩

/-- Insert a text into the group for cluster id `c`, preserving the
`defaultdict` insertion order and appending within a group. -/
def addToGroups (gs : List (Nat × List String)) (c : Nat) (t : String) :
    List (Nat × List String) :=
  match gs with
  | [] => [(c, [t])]
  | (c0, ts) :: rest =>
    if c0 = c then (c0, ts ++ [t]) :: rest
    else (c0, ts) :: addToGroups rest c t

/-- Lines 419-425: `clusters_data = defaultdict(list)`; for each indexed
text with `i < len(kmeans_model.labels_)`, append it to its cluster's
group (texts beyond `labels_` are skipped with a warning). -/
def clustersData (labels : List Nat) (texts : List String) :
    List (Nat × List String) :=
  texts.enum.foldl
    (fun gs p =>
      if p.1 < labels.length then addToGroups gs (labels.getD p.1 0) p.2
      else gs)
    []

/-- The dictionary key `f"Theme {cluster_id+1}"`. -/
def themeKey (clusterId : Nat) : String :=
  "Theme " ++ toString (clusterId + 1)

/-- The fallback label `f"Error Theme {cluster_id+1}"` assigned by the
`except` clause (line 484). -/
def errorTheme (clusterId : Nat) : String :=
  "Error Theme " ++ toString (clusterId + 1)

/-- `get_cluster_keywords_semantic(kmeans_model, journal_texts, ...)`
(lines 413-487).  The body of the per-group `try` block (NLTK
preprocessing, TF-IDF fitting, POS tagging and the keyword fallbacks,
lines 436-481) depends on external library collaborators and is
abstracted as the `extract` oracle: given a cluster id and the group's
texts, it either returns the theme label the block computes or raises.
An exception in one group's block is caught by the per-group `except`,
which substitutes the error placeholder and continues with the remaining
groups. -/
def getClusterKeywordsSemantic
    (extract : Nat → List String → Except PyException String)
    (kmeansModel : Option KMeansModel) (journalTexts : List String) :
    List (String × String) :=
  match kmeansModel with
  | none => []
  | some m =>
    if journalTexts.isEmpty then []
    else
      (clustersData m.labels journalTexts).map fun g =>
        (themeKey g.1,
         if g.2.isEmpty then "No entries in this theme"
         else
           match extract g.1 g.2 with
           | .ok name => name
           | .error _ => errorTheme g.1)

/-! ## AnomalyDetector (routes.py, `detect_anomalies`, lines 209-339)

The detector builds a DataFrame, coerces `averageMood` / `totalWords` to
numeric (failed coercions become NaN, modelled as `none`), sorts by date,
computes pandas `ewm(span=7, adjust=False, min_periods=1)` mean and std
for both columns, and flags days from `start_idx` on.  The EWM
definitions below follow the pandas online algorithms (`ewm_mean` /
`ewm_cov` with `adjust=False`, `ignore_na=False`, `bias=False`,
`min_periods=1`): output entries that pandas leaves as NaN are `none`.
Anomaly messages are presentation strings and are not modelled; an
anomaly record keeps the date and which of the two metrics flagged. -/

/-- One entry of the `daily_data_list` input after the
`pd.to_numeric(..., errors="coerce")` step: `none` models a missing or
non-numeric value (NaN). -/
structure DayData where
  date : Nat
  averageMood : Option ℚ
  totalWords : Option ℚ
deriving DecidableEq

/-- One detected anomaly: its date and which metrics are in its `type`
list (`"mood"`, `"words"`). -/
structure AnomalyRec where
  date : Nat
  moodAnomaly : Bool
  wordsAnomaly : Bool
deriving DecidableEq

/-- Running state of the pandas `ewm(...).mean()` online algorithm with
`adjust=False`: the current weighted average (NaN before the first
observation) and the accumulated old weight. -/
structure EwmMeanState where
  avg : Option ℚ
  oldWt : ℚ

/-- One step of the pandas EWM mean recurrence (`adjust=False`,
`ignore_na=False`): with a previous average, the old weight decays by
`(1-alpha)` every row; an observation folds in with weight `alpha` and
resets the old weight to 1; before the first observation the average
stays NaN until an observation seeds it. -/
def ewmMeanStep (alpha : ℚ) (s : EwmMeanState) (cur : Option ℚ) :
    EwmMeanState :=
  match s.avg, cur with
  | some a, some c =>
    let ow := s.oldWt * (1 - alpha)
    let a2 := if a ≠ c then (ow * a + alpha * c) / (ow + alpha) else a
    ⟨some a2, 1⟩
  | some a, none => ⟨some a, s.oldWt * (1 - alpha)⟩
  | none, some c => ⟨some c, s.oldWt⟩
  | none, none => ⟨none, s.oldWt⟩

/-- Tail of the EWM mean output series: with `min_periods=1` the output at
a row equals the state's average after processing that row. -/
def ewmMeanGo (alpha : ℚ) (s : EwmMeanState) : List (Option ℚ) → List (Option ℚ)
  | [] => []
  | c :: rest =>
    let s2 := ewmMeanStep alpha s c
    s2.avg :: ewmMeanGo alpha s2 rest

/-- `series.ewm(span=..., adjust=False, min_periods=1).mean()`: the first
output equals the first input (NaN if missing); the state is seeded with
it and old weight 1. -/
def ewmMeanSeries (alpha : ℚ) : List (Option ℚ) → List (Option ℚ)
  | [] => []
  | x0 :: rest => x0 :: ewmMeanGo alpha ⟨x0, 1⟩ rest

/-- Running state of the pandas `ewm(...).var()` online algorithm
(`ewmcov` with x = y, `adjust=False`): current mean (NaN before the first
observation), biased covariance accumulator, sum of normalized weights,
sum of squared normalized weights, and the old weight. -/
structure EwmVarState where
  mean : Option ℚ
  cov : ℚ
  sumWt : ℚ
  sumWt2 : ℚ
  oldWt : ℚ

/-- One step of the pandas EWM variance recurrence (`adjust=False`,
`ignore_na=False`): every row decays the weight sums by `(1-alpha)`; an
observation updates the mean and the covariance accumulator with new
weight `alpha` and renormalizes the weight sums by the total weight. -/
def ewmVarStep (alpha : ℚ) (s : EwmVarState) (cur : Option ℚ) :
    EwmVarState :=
  match s.mean, cur with
  | some m, cur2 =>
    let sw := s.sumWt * (1 - alpha)
    let sw2 := s.sumWt2 * (1 - alpha) * (1 - alpha)
    let ow := s.oldWt * (1 - alpha)
    match cur2 with
    | some c =>
      let m2 := if m ≠ c then (ow * m + alpha * c) / (ow + alpha) else m
      let cov2 := (ow * (s.cov + (m - m2) * (m - m2)) + alpha * ((c - m2) * (c - m2)))
                    / (ow + alpha)
      let owN := ow + alpha
      ⟨some m2, cov2, (sw + alpha) / owN, (sw2 + alpha * alpha) / (owN * owN), 1⟩
    | none => ⟨some m, s.cov, sw, sw2, ow⟩
  | none, some c => ⟨some c, s.cov, s.sumWt, s.sumWt2, s.oldWt⟩
  | none, none => s

/-- The debiased variance read off a state (`bias=False`): NaN before the
first observation, and NaN whenever the debiasing denominator
`sum_wt^2 - sum_wt2` is not positive (in particular at the first
observation). -/
def ewmVarOut (s : EwmVarState) : Option ℚ :=
  match s.mean with
  | none => none
  | some _ =>
    let num := s.sumWt * s.sumWt
    if 0 < num - s.sumWt2 then some (num / (num - s.sumWt2) * s.cov) else none

/-- Tail of the EWM variance output series. -/
def ewmVarGo (alpha : ℚ) (s : EwmVarState) : List (Option ℚ) → List (Option ℚ)
  | [] => []
  | c :: rest =>
    let s2 := ewmVarStep alpha s c
    ewmVarOut s2 :: ewmVarGo alpha s2 rest

/-- `series.ewm(span=..., adjust=False, min_periods=1).var()` with
`bias=False`; `std` is its square root, so `std > 0 ↔ var > 0` and
`std` is NaN exactly where `var` is. -/
def ewmVarSeries (alpha : ℚ) : List (Option ℚ) → List (Option ℚ)
  | [] => []
  | x0 :: rest =>
    let s0 : EwmVarState := ⟨x0, 0, 1, 1, 1⟩
    ewmVarOut s0 :: ewmVarGo alpha s0 rest

/-- `ewma_span = 7` (line 243). -/
def ewmaSpan : Nat := 7

/-- The decay parameter pandas derives from a span:
`alpha = 2 / (span + 1) = 1/4`. -/
def ewmaAlpha : ℚ := 2 / ((ewmaSpan : ℚ) + 1)

instance : DecidableRel fun (a b : DayData) => a.date ≤ b.date :=
  fun a b => Nat.decLe a.date b.date

/-- `df.sort_values(by="date")` (line 235); pandas sorting is stable, as
is insertion sort. -/
def sortedDays (l : List DayData) : List DayData :=
  List.insertionSort (fun a b => a.date ≤ b.date) l

/-- The sorted `averageMood` column. -/
def moodSeries (l : List DayData) : List (Option ℚ) :=
  (sortedDays l).map (·.averageMood)

/-- The sorted `totalWords` column. -/
def wordsSeries (l : List DayData) : List (Option ℚ) :=
  (sortedDays l).map (·.totalWords)

/-- `df["mood_ewma_mean"]` (line 246). -/
def moodEwmMeans (l : List DayData) : List (Option ℚ) :=
  ewmMeanSeries ewmaAlpha (moodSeries l)

/-- The square of `df["mood_ewma_std"]` (line 247). -/
def moodEwmVars (l : List DayData) : List (Option ℚ) :=
  ewmVarSeries ewmaAlpha (moodSeries l)

/-- `df["words_ewma_mean"]` (line 248). -/
def wordsEwmMeans (l : List DayData) : List (Option ℚ) :=
  ewmMeanSeries ewmaAlpha (wordsSeries l)

/-- The square of `df["words_ewma_std"]` (line 249). -/
def wordsEwmVars (l : List DayData) : List (Option ℚ) :=
  ewmVarSeries ewmaAlpha (wordsSeries l)

/-- The per-metric anomaly test (lines 278-294 for mood, 301-317 for
words), phrased on the variance: when `std > 0` the test
`|(x - mean)/std| > threshold` is equivalent to
`(x - mean)^2 > threshold^2 * var`; when `std = 0` the day flags exactly
when the value differs from the mean. -/
def deviationFlag (threshold x mean var : ℚ) : Bool :=
  if 0 < var then decide ((x - mean) ^ 2 > threshold ^ 2 * var)
  else decide (x ≠ mean)

/-- `mood_threshold_std = 0.8` (line 253). -/
def moodThresholdStd : ℚ := 4 / 5

/-- `words_threshold_std = 1.` (line 254). -/
def wordsThresholdStd : ℚ := 1

/-- The NaN-guard and the two metric tests for one row (lines 268-317):
when the row's daily values or any of its four EWMA statistics is NaN the
row is skipped (`continue`), modelled as `none`; otherwise the pair of
(mood, words) flags is produced. -/
def dayFlags (l : List DayData) (i : Nat) (day : DayData) :
    Option (Bool × Bool) :=
  match day.averageMood, day.totalWords, (moodEwmMeans l)[i]?,
      (moodEwmVars l)[i]?, (wordsEwmMeans l)[i]?, (wordsEwmVars l)[i]? with
  | some x, some w, some (some mMean), some (some mVar),
      some (some wMean), some (some wVar) =>
    some (deviationFlag moodThresholdStd x mMean mVar,
          deviationFlag wordsThresholdStd w wMean wVar)
  | _, _, _, _, _, _ => none

/-- The loop body for row `i` (lines 263-334): look up the row, run the
guard and the metric tests, and emit an anomaly record carrying the row's
date when either metric flags (lines 320-333). -/
def anomalyAt (l : List DayData) (i : Nat) : Option AnomalyRec :=
  match (sortedDays l)[i]? with
  | none => none
  | some day =>
    match dayFlags l i day with
    | some (moodFlag, wordsFlag) =>
      if moodFlag || wordsFlag then some ⟨day.date, moodFlag, wordsFlag⟩
      else none
    | none => none

/-- `start_idx = ewma_span - 1 if len(df) >= ewma_span else 0`
(line 261). -/
def anomalyStartIdx (l : List DayData) : Nat :=
  if ewmaSpan ≤ (sortedDays l).length then ewmaSpan - 1 else 0

/-- `detect_anomalies(daily_data_list)`: the list of anomaly records
produced by iterating rows `start_idx .. len(df)-1` (the summary message
strings are not modelled). -/
def detectAnomalies (l : List DayData) : List AnomalyRec :=
  ((List.range (sortedDays l).length).drop (anomalyStartIdx l)).filterMap
    (anomalyAt l)

/-- The 10-day scenario of the specification's testable property: six
days of mood exactly 0.5, day 7 at 0.9, constant word counts throughout
(the remaining days return to 0.5). -/
def c4Input : List DayData :=
  [⟨1, some (1/2), some 100⟩, ⟨2, some (1/2), some 100⟩,
   ⟨3, some (1/2), some 100⟩, ⟨4, some (1/2), some 100⟩,
   ⟨5, some (1/2), some 100⟩, ⟨6, some (1/2), some 100⟩,
   ⟨7, some (9/10), some 100⟩, ⟨8, some (1/2), some 100⟩,
   ⟨9, some (1/2), some 100⟩, ⟨10, some (1/2), some 100⟩]

/-! ## Theorems -/

/-- Helper for claim C8: when every attempt raises a connection error,
the retry loop started with `fuel + 1` allowed attempts uses all of them
and re-raises the connection error. -/
theorem retryRun_connError (responseSchema : Bool)
    (outcomes : Nat → TransportOutcome)
    (h : ∀ n, outcomes n = TransportOutcome.raiseConnectionError) :
    ∀ (fuel attempt : Nat),
      retryRun responseSchema outcomes attempt (fuel + 1) =
        (.error .connectionError, fuel + 1) := by
  intro fuel
  induction fuel with
  | zero =>
    intro attempt
    simp [retryRun, h attempt, attemptOnce, isRetryableException]
  | succ f ih =>
    intro attempt
    simp [retryRun, h attempt, attemptOnce, isRetryableException,
      ih (attempt + 1)]

/-- Claim C8: if the transport raises a connection error on every
attempt, `call_gemini_api` runs exactly 5 attempts, queries the rate
gate exactly once per attempt (5 queries in total, since
`_wait_for_rate_limit` is the first statement of every attempt body),
and returns `None`. -/
theorem callGeminiApi_connError_five_attempts (responseSchema : Bool)
    (outcomes : Nat → TransportOutcome)
    (h : ∀ n, outcomes n = TransportOutcome.raiseConnectionError) :
    callGeminiApi responseSchema outcomes = (none, 5) := by
  have h5 := retryRun_connError responseSchema outcomes h 4 1
  norm_num at h5
  simp [callGeminiApi, makeApiCallWithRetries, maxApiAttempts, h5,
    handleApiException]

/-- Witness for claim C8 at a concrete outcome sequence. -/
theorem callGeminiApi_connError_five_attempts_witness :
    callGeminiApi true (fun _ => TransportOutcome.raiseConnectionError) =
      (none, 5) :=
  callGeminiApi_connError_five_attempts true
    (fun _ => TransportOutcome.raiseConnectionError) (fun _ => rfl)

/-- Claim C3: whatever exception the retrying call re-raises
(transport error, HTTP error after retries, JSON decode failure, or any
other exception), `call_gemini_api` swallows it and returns `None`: the
function's only outputs are a parsed value or `None`. -/
theorem callGeminiApi_never_propagates (responseSchema : Bool)
    (outcomes : Nat → TransportOutcome) (e : PyException)
    (h : (makeApiCallWithRetries responseSchema outcomes).1 = .error e) :
    (callGeminiApi responseSchema outcomes).1 = none := by
  have hc : (callGeminiApi responseSchema outcomes).1 =
      (match (makeApiCallWithRetries responseSchema outcomes).1 with
       | .ok v => v
       | .error e2 => handleApiException e2) := rfl
  rw [hc, h]
  cases e <;> rfl

/-- Witness for claim C3: a run whose attempts all raise connection
errors ends in `None`. -/
theorem callGeminiApi_never_propagates_witness :
    (callGeminiApi true (fun _ => TransportOutcome.raiseConnectionError)).1 =
      none :=
  callGeminiApi_never_propagates true
    (fun _ => TransportOutcome.raiseConnectionError) .connectionError rfl

/-- Claim C2 divergence: an HTTP 400 (a non-429 client error) raises
`requests.exceptions.HTTPError`, which IS among the retried exception
types, so a persistent 400 consumes all 5 attempts instead of failing
after the first one (the claim and the code's own
"non-retriable" log message say it should not be retried). -/
theorem clientError400_retried_five_attempts :
    makeApiCallWithRetries true
        (fun _ => TransportOutcome.response 400 GeminiBody.invalidJson) =
      (.error (.httpError 400), 5) := rfl

/-- Helper for claim C1: the TPM section leaves the token counter at or
below the limit provided the tokens being added do not exceed the limit
by themselves.  (Whenever the counter would overflow, the sleep branch
zeroes it before the addition; the sleep branch is reachable except in
the degenerate case, where the bound holds directly.) -/
theorem tpmPhase_tokens_le (cfg : GateConfig) (tokens lastReset t add : ℚ)
    (hadd : add ≤ cfg.maxTokensPerMinute) :
    (tpmPhase cfg tokens lastReset t add).1 ≤ cfg.maxTokensPerMinute := by
  unfold tpmPhase
  split_ifs with h1 h2 h3 h4 h5 <;> simp only <;> linarith

/-- Helper for claim C1: one `_wait_for_rate_limit` call leaves the token
counter at or below the limit when its `tokens_to_add` does not exceed
the limit by itself, whatever the prior state. -/
theorem waitForRateLimit_tokens_le (cfg : GateConfig) (s : GateState)
    (now add : ℚ) (hadd : add ≤ cfg.maxTokensPerMinute) :
    ((waitForRateLimit cfg s now add).1).currentTokensInWindow ≤
      cfg.maxTokensPerMinute :=
  tpmPhase_tokens_le cfg s.currentTokensInWindow s.tpmLastResetTime
    (rpmPhase cfg s.requestsTimestamps now).2 add hadd

/-- Claim C1 (amended): for every sequence of `acquire` calls in which
every call's `estimated_tokens` is at most the tokens-per-minute limit
(and starting from a state whose counter respects the limit, e.g. the
initial one), the token counter never exceeds the limit at the moment a
call is admitted.  Every prefix of a call sequence is itself a call
sequence, so this bounds the counter after each admission. -/
theorem runAcquires_tokens_le (cfg : GateConfig) (s : GateState)
    (calls : List (ℚ × ℚ))
    (hs : s.currentTokensInWindow ≤ cfg.maxTokensPerMinute)
    (hcalls : ∀ c ∈ calls, c.2 ≤ cfg.maxTokensPerMinute) :
    (runAcquires cfg s calls).currentTokensInWindow ≤
      cfg.maxTokensPerMinute := by
  have main : ∀ (cs : List (ℚ × ℚ)) (st : GateState),
      st.currentTokensInWindow ≤ cfg.maxTokensPerMinute →
      (∀ c ∈ cs, c.2 ≤ cfg.maxTokensPerMinute) →
      (runAcquires cfg st cs).currentTokensInWindow ≤
        cfg.maxTokensPerMinute := by
    intro cs
    induction cs with
    | nil => intro st h1 _; exact h1
    | cons c rest ih =>
      intro st h1 h2
      exact ih ((waitForRateLimit cfg st c.1 c.2).1)
        (waitForRateLimit_tokens_le cfg st c.1 c.2
          (h2 c (List.mem_cons_self c rest)))
        (fun d hd => h2 d (List.mem_cons_of_mem c hd))
  exact main calls s hs hcalls

/-- Witness for claim C1 (amended) at a concrete call sequence. -/
theorem runAcquires_tokens_le_witness :
    (runAcquires geminiGateConfig ⟨[], 0, 0⟩
        [(0, 1000), (1, 2000)]).currentTokensInWindow ≤
      geminiGateConfig.maxTokensPerMinute :=
  runAcquires_tokens_le geminiGateConfig ⟨[], 0, 0⟩ [(0, 1000), (1, 2000)]
    (by norm_num [geminiGateConfig]) (by decide)

/-- Claim C1 counterexample: a single `acquire` whose `estimated_tokens`
exceeds the tokens-per-minute limit by itself is admitted (after one
sleep that zeroes the counter) with the counter strictly above the
limit, so the claimed invariant fails for unrestricted non-negative
token estimates. -/
theorem rateGate_counter_can_exceed_limit :
    geminiGateConfig.maxTokensPerMinute <
      ((waitForRateLimit geminiGateConfig ⟨[], 0, 0⟩ 0
          30000001).1).currentTokensInWindow := by
  norm_num [waitForRateLimit, rpmPhase, tpmPhase, dropExpired,
    geminiGateConfig]

/-- Helper: summing a list after dividing each entry by a constant
equals dividing the sum. -/
theorem list_sum_map_div (l : List ℚ) (c : ℚ) :
    (l.map fun x => x / c).sum = l.sum / c := by
  induction l with
  | nil => simp
  | cons x xs ih => simp [ih, add_div]

/-- Helper: rescaling every score by a constant divides the total by
that constant. -/
theorem emotionsTotal_map_div (es : List (String × ℚ)) (c : ℚ) :
    emotionsTotal (es.map fun p => (p.1, p.2 / c)) = emotionsTotal es / c := by
  unfold emotionsTotal
  rw [List.map_map]
  rw [show (Prod.snd ∘ fun p : String × ℚ => (p.1, p.2 / c)) =
      ((fun x : ℚ => x / c) ∘ Prod.snd) from rfl]
  rw [← List.map_map, list_sum_map_div]

/-- Claim C5: after the assembler's normalization step, the emotion
scores sum to 1.0 (so within the 0.01 tolerance) whenever the coerced
raw sum is positive and differs from 1.0 by more than 0.01; in every
other case the coerced scores are returned unchanged. -/
theorem normalizeEmotions_spec (raw : List (String × RawScore)) :
    (0 < emotionsTotal (processEmotions raw) ∧
        1 / 100 < |emotionsTotal (processEmotions raw) - 1| →
      |emotionsTotal (normalizeEmotions raw) - 1| ≤ 1 / 100) ∧
    (¬(0 < emotionsTotal (processEmotions raw) ∧
        1 / 100 < |emotionsTotal (processEmotions raw) - 1|) →
      normalizeEmotions raw = processEmotions raw) := by
  constructor
  · intro h
    have hT : emotionsTotal (processEmotions raw) ≠ 0 := ne_of_gt h.1
    have hsum : emotionsTotal (normalizeEmotions raw) = 1 := by
      unfold normalizeEmotions
      rw [if_pos h, emotionsTotal_map_div]
      exact div_self hT
    rw [hsum]
    norm_num
  · intro h
    unfold normalizeEmotions
    rw [if_neg h]

/-- Witness for claim C5: a raw mapping whose coerced sum is 3/2 (one
invalid score coerced to 0) gets rescaled to sum exactly 1. -/
theorem normalizeEmotions_spec_witness :
    |emotionsTotal (normalizeEmotions
        [("joy", RawScore.num (3/2)), ("custom", RawScore.invalid)]) - 1| ≤
      1 / 100 :=
  (normalizeEmotions_spec
      [("joy", RawScore.num (3/2)), ("custom", RawScore.invalid)]).1
    (by decide)

/-- Helper for claim C6: a lookup with default 0 in a table whose values
all lie in `[-1, 1]` yields a value in `[-1, 1]`. -/
theorem abs_lookup_getD_le (l : List (String × ℚ)) (k : String)
    (h : ∀ p ∈ l, |p.2| ≤ 1) : |(l.lookup k).getD 0| ≤ 1 := by
  induction l with
  | nil => simp
  | cons p rest ih =>
    rcases p with ⟨a, v⟩
    cases hk : k == a with
    | true =>
      simp only [List.lookup, hk, Option.getD_some]
      exact h (a, v) (List.mem_cons_self _ _)
    | false =>
      simp only [List.lookup, hk]
      exact ih fun q hq => h q (List.mem_cons_of_mem _ hq)

/-- Every weight the scorer can look up lies in `[-1, 1]`: the fixed
table's values do, and unknown emotions weigh 0. -/
theorem abs_weightFor_le (emotion : String) : |weightFor emotion| ≤ 1 :=
  abs_lookup_getD_le emotionWeights emotion.toLower (by decide)

/-- Helper for claim C6: with non-negative scores, the weighted sum is
bounded in absolute value by the plain sum of scores. -/
theorem abs_weightedMoodSum_le (es : List (String × ℚ))
    (h : ∀ p ∈ es, 0 ≤ p.2) :
    |weightedMoodSum es| ≤ totalEmotionScore es := by
  induction es with
  | nil => simp [weightedMoodSum, totalEmotionScore]
  | cons p rest ih =>
    have h1 : 0 ≤ p.2 := h p (List.mem_cons_self _ _)
    have h2 := ih fun q hq => h q (List.mem_cons_of_mem _ hq)
    have h3 : |p.2 * weightFor p.1| ≤ p.2 := by
      rw [abs_mul, abs_of_nonneg h1]
      calc p.2 * |weightFor p.1| ≤ p.2 * 1 :=
            mul_le_mul_of_nonneg_left (abs_weightFor_le p.1) h1
        _ = p.2 := mul_one _
    have hstep : weightedMoodSum (p :: rest) =
        p.2 * weightFor p.1 + weightedMoodSum rest := by
      simp [weightedMoodSum]
    have htot : totalEmotionScore (p :: rest) =
        p.2 + totalEmotionScore rest := by
      simp [totalEmotionScore]
    rw [hstep, htot]
    calc |p.2 * weightFor p.1 + weightedMoodSum rest| ≤
          |p.2 * weightFor p.1| + |weightedMoodSum rest| := abs_add _ _
      _ ≤ p.2 + totalEmotionScore rest := add_le_add h3 h2

/-- Claim C6: for an emotion mapping with non-negative scores, the
derived mood score is the weighted average
`(Σ score·weight) / (Σ score)` and lies in `[-1, 1]` when the total
score is positive, and is exactly 0 when the mapping is empty or the
total is 0. -/
theorem moodScore_spec (es : List (String × ℚ)) (h : ∀ p ∈ es, 0 ≤ p.2) :
    (0 < totalEmotionScore es →
      moodScore es = weightedMoodSum es / totalEmotionScore es ∧
      -1 ≤ moodScore es ∧ moodScore es ≤ 1) ∧
    (totalEmotionScore es = 0 → moodScore es = 0) ∧
    (es = [] → moodScore es = 0) := by
  refine ⟨?_, ?_, ?_⟩
  · intro hpos
    have heq : moodScore es = weightedMoodSum es / totalEmotionScore es := by
      unfold moodScore
      rw [if_pos hpos]
    have habs : |moodScore es| ≤ 1 := by
      rw [heq, abs_div, abs_of_pos hpos]
      exact (div_le_one hpos).mpr (abs_weightedMoodSum_le es h)
    exact ⟨heq, (abs_le.mp habs).1, (abs_le.mp habs).2⟩
  · intro h0
    unfold moodScore
    rw [if_neg (by rw [h0]; exact lt_irrefl 0)]
  · intro hnil
    subst hnil
    unfold moodScore
    rw [if_neg (by simp [totalEmotionScore])]

/-- Witness for claim C6: a concrete mapping with positive total score
(note the case-insensitive weight lookup). -/
theorem moodScore_spec_witness :
    -1 ≤ moodScore [("JOY", 1/2), ("anger", 1/2)] ∧
      moodScore [("JOY", 1/2), ("anger", 1/2)] ≤ 1 :=
  ⟨((moodScore_spec [("JOY", 1/2), ("anger", 1/2)] (by decide)).1
      (by norm_num [totalEmotionScore])).2.1,
   ((moodScore_spec [("JOY", 1/2), ("anger", 1/2)] (by decide)).1
      (by norm_num [totalEmotionScore])).2.2⟩

/-- Claim C7: with the embedding model available and a positive
requested cluster count, training returns `None` exactly when `texts` is
empty or `min(requested_k, len(texts)) <= 1`; any returned model has
`n_clusters = min(requested_k, len(texts))` (so an over-large request is
silently clamped); and a single text yields `None` regardless of the
request. -/
theorem trainAndSave_spec (assign : Nat → List String → List Nat)
    (texts : List String) (k : Int) (_hk : 0 < k) :
    (trainAndSaveClusteringModel assign true texts k = none ↔
      texts = [] ∨ min k (texts.length : Int) ≤ 1) ∧
    (∀ m, trainAndSaveClusteringModel assign true texts k = some m →
      (m.nClusters : Int) = min k (texts.length : Int)) ∧
    (texts.length = 1 →
      trainAndSaveClusteringModel assign true texts k = none) := by
  unfold trainAndSaveClusteringModel
  by_cases he : texts.isEmpty = true
  · rw [if_pos he]
    rw [List.isEmpty_iff] at he
    refine ⟨by simp [he], ?_, fun _ => rfl⟩
    intro m hm
    exact absurd hm (by simp)
  · rw [if_neg he]
    have hne : texts ≠ [] := fun hnil => he (List.isEmpty_iff.mpr hnil)
    simp only [Bool.not_true, Bool.false_eq_true, if_false]
    by_cases hmin : min k (texts.length : Int) ≤ 1
    · rw [if_pos hmin]
      refine ⟨by simp [hmin], ?_, fun _ => rfl⟩
      intro m hm
      exact absurd hm (by simp)
    · rw [if_neg hmin]
      have h2 : (1 : Int) < min k (texts.length : Int) := not_le.mp hmin
      refine ⟨by simp [hne, hmin], ?_, ?_⟩
      · intro m hm
        have hmEq : m = ⟨(min k (texts.length : Int)).toNat,
            assign (min k (texts.length : Int)).toNat texts⟩ :=
          (Option.some.injEq _ _).mp hm.symm
        rw [hmEq]
        exact Int.toNat_of_nonneg (le_of_lt (lt_trans zero_lt_one h2))
      · intro h1
        exfalso
        rw [h1] at hmin
        exact hmin (by simp)

/-- Witness for claim C7: one text yields no model even when 7 clusters
are requested. -/
theorem trainAndSave_spec_witness :
    trainAndSaveClusteringModel (fun _ _ => []) true ["hello"] 7 = none :=
  (trainAndSave_spec (fun _ _ => []) ["hello"] 7 (by decide)).2.2 rfl

/-- Claim C9: every non-empty group produced by the clustering gets an
entry in the returned theme mapping, keyed `Theme {id+1}`; the entry is
the label its own extraction computes on success and the fixed error
placeholder when its own extraction raises — independent, either way, of
what the extraction does on every other group (so one group's failure
never aborts the rest), and the whole function is total (never
raises). -/
theorem getClusterKeywords_per_group
    (extract : Nat → List String → Except PyException String)
    (m : KMeansModel) (texts : List String) (cid : Nat) (grp : List String)
    (hmem : (cid, grp) ∈ clustersData m.labels texts) (hne : grp ≠ []) :
    (themeKey cid,
      match extract cid grp with
      | .ok name => name
      | .error _ => errorTheme cid) ∈
      getClusterKeywordsSemantic extract (some m) texts := by
  unfold getClusterKeywordsSemantic
  have htex : texts.isEmpty = false := by
    cases texts with
    | nil => simp [clustersData] at hmem
    | cons a as => rfl
  have hgrp : grp.isEmpty = false := by
    cases grp with
    | nil => exact absurd rfl hne
    | cons b bs => rfl
  have hmap := List.mem_map_of_mem (f := fun g : Nat × List String =>
    (themeKey g.1,
     if g.2.isEmpty then "No entries in this theme"
     else
       match extract g.1 g.2 with
       | .ok name => name
       | .error _ => errorTheme g.1)) hmem
  simp only [htex, Bool.false_eq_true, if_false]
  simpa [hgrp] using hmap

/-- Witness for claim C9: three texts in two groups, the extraction
raising on group 1 only; group 1 gets the error placeholder (and group 0
still gets its own label). -/
theorem getClusterKeywords_per_group_witness :
    ("Theme 2", "Error Theme 2") ∈
      getClusterKeywordsSemantic
        (fun cid _ => if cid = 1 then .error .otherError else .ok "keywords")
        (some ⟨2, [0, 1, 0]⟩) ["a", "b", "c"] := by
  have h := getClusterKeywords_per_group
    (fun cid _ => if cid = 1 then .error .otherError else .ok "keywords")
    ⟨2, [0, 1, 0]⟩ ["a", "b", "c"] 1 ["b"] (by decide) (by decide)
  exact h

/-- Claim C4 counterexample: on the 10-day constant-then-jump input the
mood EWM standard deviation at day 7 is strictly positive (its square is
2097152/58020625, i.e. std ≈ 0.19), because the day-7 observation itself
enters the EWM window; so the zero-standard-deviation rule is not the
rule that applies on day 7. -/
theorem c4_moodStd_positive_at_jump :
    (moodEwmVars c4Input)[6]? = some (some (2097152 / 58020625)) ∧
      (0 : ℚ) < 2097152 / 58020625 := by
  constructor
  · decide
  · norm_num

/-- Claim C4 (amended): day 7 of the scenario is flagged as a mood
anomaly (and nothing else is flagged) — via the z-score rule, since the
EWM std there is positive and |z| = 0.3/0.19012… ≈ 1.58 exceeds the 0.8
threshold. -/
theorem c4_day7_flagged_mood_anomaly :
    detectAnomalies c4Input = [⟨7, true, false⟩] := by decide

/-- Helper for claim C10: a row that passes the NaN guard has both its
daily values present. -/
theorem dayFlags_some_fields (l : List DayData) (i : Nat) (day : DayData)
    (p : Bool × Bool) (h : dayFlags l i day = some p) :
    day.averageMood ≠ none ∧ day.totalWords ≠ none := by
  unfold dayFlags at h
  rcases hm : day.averageMood with _ | x
  · rw [hm] at h
    simp at h
  · rcases hw : day.totalWords with _ | w
    · rw [hm, hw] at h
      simp at h
    · exact ⟨by simp, by simp⟩

/-- Helper for claim C10: an emitted anomaly record carries the date of
its row, and that row has both daily values present. -/
theorem anomalyAt_present (l : List DayData) (i : Nat) (a : AnomalyRec)
    (h : anomalyAt l i = some a) :
    ∃ day : DayData, (sortedDays l)[i]? = some day ∧ a.date = day.date ∧
      day.averageMood ≠ none ∧ day.totalWords ≠ none := by
  unfold anomalyAt at h
  rcases hday : (sortedDays l)[i]? with _ | day
  · rw [hday] at h
    simp at h
  · rw [hday] at h
    dsimp only at h
    rcases hf : dayFlags l i day with _ | ⟨mf, wf⟩
    · rw [hf] at h
      simp at h
    · rw [hf] at h
      dsimp only at h
      by_cases hflag : (mf || wf) = true
      · rw [if_pos hflag] at h
        have ha : a = ⟨day.date, mf, wf⟩ := ((Option.some.injEq _ _).mp h).symm
        exact ⟨day, rfl, by rw [ha],
          (dayFlags_some_fields l i day (mf, wf) hf).1,
          (dayFlags_some_fields l i day (mf, wf) hf).2⟩
      · rw [if_neg hflag] at h
        simp at h

/-- Claim C10: when dates are unique (as the data model requires), a day
whose `averageMood` or `totalWords` is missing/non-numeric is skipped by
the NaN guard, so no anomaly of any type is ever emitted for its
date. -/
theorem missingValue_day_not_flagged (l : List DayData)
    (hnd : (l.map DayData.date).Nodup) (d : DayData) (hd : d ∈ l)
    (hmiss : d.averageMood = none ∨ d.totalWords = none) :
    ∀ a ∈ detectAnomalies l, a.date ≠ d.date := by
  intro a ha heq
  obtain ⟨i, _, hai⟩ := List.mem_filterMap.mp ha
  obtain ⟨day, hday, hadate, hmood, hwords⟩ := anomalyAt_present l i a hai
  have hdaymem : day ∈ sortedDays l := List.getElem?_mem hday
  have hperm : (sortedDays l).Perm l := List.perm_insertionSort _ l
  have hdmem : d ∈ sortedDays l := hperm.mem_iff.mpr hd
  have hnd2 : ((sortedDays l).map DayData.date).Nodup :=
    ((hperm.map DayData.date).nodup_iff).mpr hnd
  have hdd : day = d :=
    List.inj_on_of_nodup_map hnd2 hdaymem hdmem (hadate.symm.trans heq)
  rcases hmiss with hm | hw
  · exact hmood (by rw [hdd]; exact hm)
  · exact hwords (by rw [hdd]; exact hw)

/-- The claim C10 witness scenario: the day-7 jump input with day 9's
mood missing; day 7 is flagged, and its date differs from the
missing-value day's date as the claim requires. -/
def c10Input : List DayData :=
  [⟨1, some (1/2), some 100⟩, ⟨2, some (1/2), some 100⟩,
   ⟨3, some (1/2), some 100⟩, ⟨4, some (1/2), some 100⟩,
   ⟨5, some (1/2), some 100⟩, ⟨6, some (1/2), some 100⟩,
   ⟨7, some (9/10), some 100⟩, ⟨8, some (1/2), some 100⟩,
   ⟨9, none, some 100⟩, ⟨10, some (1/2), some 100⟩]

/-- Witness for claim C10 at the concrete scenario. -/
theorem missingValue_day_not_flagged_witness :
    (AnomalyRec.mk 7 true false).date ≠ (DayData.mk 9 none (some 100)).date :=
  missingValue_day_not_flagged c10Input (by decide)
    (DayData.mk 9 none (some 100)) (by decide) (Or.inl rfl)
    (AnomalyRec.mk 7 true false) (by decide)

end MindMirror
